import Mathlib

/-!
Verification of the FordConnect client library.

This file gives a shallow embedding of the library's core logic:

* the error taxonomy and HTTP-status classification table of `utils.py`
  (`FordConnectError` subclasses, `can_retry` flags, `HTTP_EXCEPTION_DICT`);
* the shared retry loop of the transport functions `get`, `post` and
  `delete` in `utils.py` (the three loops are textually identical apart
  from the HTTP verb, which is abstracted into a response script);
* the command submit/poll protocol of `models.py`
  (`Vehicle.__submit_job`, `Vehicle.__check_job`, `Vehicle.__perform_job`);
* the token gate `Client.check_authentication` and the token-field update
  `Client.populate_authentication_info` of `models.py`;
* the EV-capability guards of the four charge operations of `models.py`.

Network responses are modelled as scripts (functions from the attempt
index to the response the server returns on that attempt); side effects
(HTTP attempts, sleeps, vehicle detail refreshes) are counted in
explicit trace records.  The configuration constants `HTTP_MAX_RETRIES`
and `HTTP_RETRY_INTERVAL` come from a config module that only supplies
numbers, so the maximum retry count is a parameter throughout and sleeps
are counted rather than timed.
-/

namespace FordConnect

/-- The named error kinds of `utils.py` (the `FordConnectError`
subclasses `BadRequest` .. `CommandFailed`). -/
inductive FordConnectError where
  | badRequest
  | unauthorized
  | forbidden
  | vehicleNotFound
  | methodNotAllowed
  | unsupportedMediaType
  | failureDependency
  | tooManyRequests
  | internalServerError
  | badGateway
  | commandTimeOut
  | commandFailed
deriving DecidableEq, Repr

/-- The `can_retry` class attribute of each error class in `utils.py`. -/
def FordConnectError.can_retry : FordConnectError → Bool
  | .tooManyRequests => true
  | .internalServerError => true
  | .badGateway => true
  | .commandTimeOut => true
  | .commandFailed => true
  | _ => false

/-- The classification table `HTTP_EXCEPTION_DICT` of `utils.py`,
as a partial map from HTTP status code to error kind (a missing key is
`none`, where the Python dict lookup raises `KeyError`). -/
def HTTP_EXCEPTION_DICT : Nat → Option FordConnectError
  | 400 => some .badRequest
  | 401 => some .unauthorized
  | 403 => some .forbidden
  | 404 => some .vehicleNotFound
  | 405 => some .methodNotAllowed
  | 415 => some .unsupportedMediaType
  | 424 => some .failureDependency
  | 429 => some .tooManyRequests
  | 500 => some .internalServerError
  | 502 => some .badGateway
  | 408 => some .commandTimeOut
  | 406 => some .commandFailed
  | _ => none

/-- An HTTP response as the transport loop sees it: a status code and a
parsed JSON body (abstracted to a type parameter). -/
structure HttpResponse (α : Type) where
  status_code : Nat
  body : α
deriving DecidableEq, Repr

/-- Outcome of one transport call: a returned body, a raised classified
error, or the unclassified `KeyError` from a status code absent from
`HTTP_EXCEPTION_DICT`. -/
inductive TransportResult (α : Type) where
  | ok (body : α)
  | error (e : FordConnectError) (msg : String)
  | keyError (code : Nat)
deriving DecidableEq, Repr

/-- Trace of one transport call: its outcome, the number of HTTP
attempts made, and the number of `time.sleep(HTTP_RETRY_INTERVAL)`
calls performed. -/
structure TransportTrace (α : Type) where
  result : TransportResult α
  attempts : Nat
  sleeps : Nat
deriving DecidableEq, Repr

/-- The retry loop shared by `get` (utils.py lines 132-141), `post`
(lines 163-172) and `delete` (lines 192-201): while `num_retries <
HTTP_MAX_RETRIES`, perform the request (take the next scripted
response); return the body if the status code is below 400; raise
immediately on a non-retryable classified code (or fail with `KeyError`
on an unclassified one); otherwise count a retry, sleep, and loop.
`remaining` is `HTTP_MAX_RETRIES - num_retries`; exhausting it raises
`raise_http_exception(408, ...)`, i.e. `CommandTimeOut`. -/
def transportLoop {α : Type} (script : Nat → HttpResponse α) (idx : Nat) :
    Nat → TransportTrace α
  | 0 => ⟨.error .commandTimeOut "Timeout during request.", 0, 0⟩
  | remaining + 1 =>
    let response := script idx
    if response.status_code < 400 then
      ⟨.ok response.body, 1, 0⟩
    else
      match HTTP_EXCEPTION_DICT response.status_code with
      | none => ⟨.keyError response.status_code, 1, 0⟩
      | some e =>
        if e.can_retry = false then
          ⟨.error e "Error during request.", 1, 0⟩
        else
          let t := transportLoop script (idx + 1) remaining
          ⟨t.result, t.attempts + 1, t.sleeps + 1⟩

/-- A transport call (`get`/`post`/`delete` of `utils.py`) against a
scripted sequence of HTTP responses, with `maxRetries` playing the role
of `HTTP_MAX_RETRIES`. -/
def transportRequest {α : Type} (maxRetries : Nat)
    (script : Nat → HttpResponse α) : TransportTrace α :=
  transportLoop script 0 maxRetries

/-- Response envelope of a command submit call:
`{ "status": ..., "commandId": ... }`. -/
structure SubmitResponse where
  status : String
  commandId : String
deriving DecidableEq, Repr

/-- Response envelope of a command check call:
`{ "status": ..., "commandStatus": ... }`. -/
structure CheckResponse where
  status : String
  commandStatus : String
deriving DecidableEq, Repr

/-- Membership test `command_status in ['COMPLETED', 'EMPTY']` of
`Vehicle.__perform_job` (models.py line 193): terminal success. -/
def isTerminalSuccess (s : String) : Bool :=
  s == "COMPLETED" || s == "EMPTY"

/-- Membership test against the terminal-failure list of
`Vehicle.__perform_job` (models.py line 196). -/
def isTerminalFailure (s : String) : Bool :=
  s == "TIMEOUT" || s == "FAILED" || s == "COMMUNICATIONFAILED" ||
  s == "MODEMINDEEPSLEEPMODE" || s == "FIRMWAREUPGRADEINPROGRESS" ||
  s == "FAILEDDUETOINVEHICLESETTINGS"

/-- Outcome of the command protocol: the command id on success, or a
raised error. -/
inductive JobResult where
  | ok (commandId : String)
  | error (e : FordConnectError) (msg : String)
deriving DecidableEq, Repr

/-- Trace of `Vehicle.__perform_job`: its outcome, the number of check
calls issued, the number of `update_from_server` detail refreshes
triggered, and the number of inter-poll sleeps. -/
structure JobTrace where
  result : JobResult
  checks : Nat
  refreshes : Nat
  sleeps : Nat
deriving DecidableEq, Repr

/-- `Vehicle.__submit_job` (models.py lines 153-163) applied to the
submit response envelope: return the `commandId` field when the
envelope status is `SUCCESS`, otherwise
`raise_http_exception(406, 'Vehicle request command failed.')`. -/
def submit_job (r : SubmitResponse) : JobResult :=
  if r.status = "SUCCESS" then .ok r.commandId
  else .error .commandFailed "Vehicle request command failed."

/-- The poll loop of `Vehicle.__perform_job` (models.py lines 190-201)
against a scripted sequence of check responses.  Each iteration runs
`__check_job` (models.py lines 166-175): a non-`SUCCESS` envelope
raises 406 `'Vehicle request command failed.'`; otherwise the
`commandStatus` value is examined — terminal success triggers one
`update_from_server` refresh and returns the command id, terminal
failure raises 406 `'Vehicle command failed to execute.'`, and anything
else counts a retry and sleeps.  Exhausting `HTTP_MAX_RETRIES` raises
408 `'Vehicle request timed out.'`. -/
def performPoll (script : Nat → CheckResponse) (commandId : String)
    (idx : Nat) : Nat → JobTrace
  | 0 => ⟨.error .commandTimeOut "Vehicle request timed out.", 0, 0, 0⟩
  | remaining + 1 =>
    let r := script idx
    if r.status ≠ "SUCCESS" then
      ⟨.error .commandFailed "Vehicle request command failed.", 1, 0, 0⟩
    else if isTerminalSuccess r.commandStatus then
      ⟨.ok commandId, 1, 1, 0⟩
    else if isTerminalFailure r.commandStatus then
      ⟨.error .commandFailed "Vehicle command failed to execute.", 1, 0, 0⟩
    else
      let t := performPoll script commandId (idx + 1) remaining
      ⟨t.result, t.checks + 1, t.refreshes, t.sleeps + 1⟩

/-- `Vehicle.__perform_job` (models.py lines 188-201): run the submit
call, then the poll loop.  A failed submit propagates before any check
call is made. -/
def perform_job (maxRetries : Nat) (submit : SubmitResponse)
    (script : Nat → CheckResponse) : JobTrace :=
  match submit_job submit with
  | .ok cid => performPoll script cid 0 maxRetries
  | .error e msg => ⟨.error e msg, 0, 0, 0⟩

/-- The action `Client.check_authentication` (models.py lines 440-445)
decides to take. -/
inductive AuthAction where
  | fullAuth
  | refreshAccessToken
  | noop
deriving DecidableEq, Repr

/-- `Client.check_authentication` (models.py lines 440-445): full
re-authentication when the current time has reached the refresh-token
expiry, else a refresh-token exchange when it has reached the
access-token expiry, else nothing. -/
def check_authentication (currTime tokenExp refreshExp : Int) : AuthAction :=
  if refreshExp ≤ currTime then .fullAuth
  else if tokenExp ≤ currTime then .refreshAccessToken
  else .noop

/-- Number of refresh-token exchanges (`refresh_access_token` calls)
an `AuthAction` performs. -/
def refreshExchanges : AuthAction → Nat
  | .refreshAccessToken => 1
  | _ => 0

/-- Number of full re-authentications (`authenticate` calls) an
`AuthAction` performs. -/
def fullAuthentications : AuthAction → Nat
  | .fullAuth => 1
  | _ => 0

/-- The token-exchange response consumed by
`Client.populate_authentication_info` (models.py lines 399-405). -/
structure TokenResponse where
  access_token : String
  refresh_token : String
  id_token : String
  token_type : String
  expires_on : Int
  not_before : Int
  refresh_token_expires_in : Int
deriving DecidableEq, Repr

/-- The token fields of `Client` that
`populate_authentication_info` assigns. -/
structure TokenState where
  access_token : String
  refresh_token : String
  id_token : String
  token_type : String
  token_expiration : Int
  refresh_token_expiration : Int
deriving DecidableEq, Repr

/-- `Client.populate_authentication_info` (models.py lines 399-405):
copy the token fields from the response; the access expiry is
`expires_on` and the refresh expiry is
`not_before + refresh_token_expires_in`. -/
def populate_authentication_info (r : TokenResponse) : TokenState :=
  { access_token := r.access_token
    refresh_token := r.refresh_token
    id_token := r.id_token
    token_type := r.token_type
    token_expiration := r.expires_on
    refresh_token_expiration := r.not_before + r.refresh_token_expires_in }

/-- Trace of one vehicle action entry point: its outcome and the number
of transport (network) calls it performs. -/
structure ActionTrace where
  result : JobResult
  transportCalls : Nat
deriving DecidableEq, Repr

/-- `Vehicle.request_start_charge` (models.py lines 305-309): when the
EV flag is false, `raise_http_exception(405, ...)` before any network
call; otherwise proceed with the submit job (abstracted as `net`). -/
def request_start_charge (is_ev : Bool) (net : ActionTrace) : ActionTrace :=
  if is_ev = false then
    ⟨.error .methodNotAllowed "Using EV-only function on non-EV vehicle.", 0⟩
  else net

/-- `Vehicle.check_start_charge` (models.py lines 311-315): same EV
guard before the check job. -/
def check_start_charge (is_ev : Bool) (net : ActionTrace) : ActionTrace :=
  if is_ev = false then
    ⟨.error .methodNotAllowed "Using EV-only function on non-EV vehicle.", 0⟩
  else net

/-- `Vehicle.request_stop_charge` (models.py lines 320-324): same EV
guard before the submit job. -/
def request_stop_charge (is_ev : Bool) (net : ActionTrace) : ActionTrace :=
  if is_ev = false then
    ⟨.error .methodNotAllowed "Using EV-only function on non-EV vehicle.", 0⟩
  else net

/-- `Vehicle.check_stop_charge` (models.py lines 326-330): same EV
guard before the check job. -/
def check_stop_charge (is_ev : Bool) (net : ActionTrace) : ActionTrace :=
  if is_ev = false then
    ⟨.error .methodNotAllowed "Using EV-only function on non-EV vehicle.", 0⟩
  else net

/-- When every scripted response carries the same retryable classified
status code, the transport retry loop consumes its whole budget, making
one attempt and one sleep per remaining unit, and ends in the 408
timeout raise. -/
theorem transportLoop_all_retryable {α : Type} (script : Nat → HttpResponse α)
    (code : Nat) (e : FordConnectError)
    (hge : 400 ≤ code)
    (hdict : HTTP_EXCEPTION_DICT code = some e)
    (hretry : e.can_retry = true)
    (hscript : ∀ i, (script i).status_code = code) :
    ∀ (remaining idx : Nat), transportLoop script idx remaining =
      ⟨.error .commandTimeOut "Timeout during request.", remaining, remaining⟩ := by
  intro remaining
  induction remaining with
  | zero => intro idx; rfl
  | succ n ih =>
    intro idx
    have hlt : ¬ code < 400 := by omega
    simp [transportLoop, hscript idx, hdict, hretry, ih (idx + 1), hlt]

/-- A first response whose status code classifies as non-retryable makes
the transport loop raise that classified error on the first attempt. -/
theorem transportLoop_step_nonretryable {α : Type} (script : Nat → HttpResponse α)
    (idx n : Nat) (e : FordConnectError)
    (hge : 400 ≤ (script idx).status_code)
    (hdict : HTTP_EXCEPTION_DICT (script idx).status_code = some e)
    (hnoretry : e.can_retry = false) :
    transportLoop script idx (n + 1) = ⟨.error e "Error during request.", 1, 0⟩ := by
  have hlt : ¬ (script idx).status_code < 400 := by omega
  simp only [transportLoop, if_neg hlt, hdict, hnoretry, if_pos]

/-- C5: for every retryable HTTP status code (406, 408, 429, 500, 502),
a transport call whose underlying HTTP response returns that status code
on every attempt raises Command-Timeout (the 408 error) after exactly
the configured maximum number of attempts, sleeping the retry interval
after each of them. -/
theorem transport_retryable_exhausts {α : Type} (maxRetries : Nat)
    (script : Nat → HttpResponse α) (code : Nat)
    (hcode : code = 406 ∨ code = 408 ∨ code = 429 ∨ code = 500 ∨ code = 502)
    (hscript : ∀ i, (script i).status_code = code) :
    (transportRequest maxRetries script).result
        = .error .commandTimeOut "Timeout during request."
    ∧ (transportRequest maxRetries script).attempts = maxRetries
    ∧ (transportRequest maxRetries script).sleeps = maxRetries := by
  obtain ⟨e, hdict, hretry, hge⟩ :
      ∃ e, HTTP_EXCEPTION_DICT code = some e ∧ e.can_retry = true ∧ 400 ≤ code := by
    rcases hcode with h | h | h | h | h <;> subst h
    · exact ⟨.commandFailed, rfl, rfl, by omega⟩
    · exact ⟨.commandTimeOut, rfl, rfl, by omega⟩
    · exact ⟨.tooManyRequests, rfl, rfl, by omega⟩
    · exact ⟨.internalServerError, rfl, rfl, by omega⟩
    · exact ⟨.badGateway, rfl, rfl, by omega⟩
  have key := transportLoop_all_retryable script code e hge hdict hretry hscript maxRetries 0
  refine ⟨?_, ?_, ?_⟩ <;> simp [transportRequest, key]

/-- Witness for C5: a script answering 408 on every attempt, with a
retry budget of 3, exhausts exactly 3 attempts and 3 sleeps. -/
theorem transport_retryable_exhausts_witness :
    (transportRequest 3 (fun _ => ({ status_code := 408, body := () } : HttpResponse Unit))).result
        = .error .commandTimeOut "Timeout during request."
    ∧ (transportRequest 3 (fun _ => ({ status_code := 408, body := () } : HttpResponse Unit))).attempts = 3
    ∧ (transportRequest 3 (fun _ => ({ status_code := 408, body := () } : HttpResponse Unit))).sleeps = 3 :=
  transport_retryable_exhausts 3 (fun _ => { status_code := 408, body := () }) 408
    (Or.inr (Or.inl rfl)) (fun _ => rfl)

/-- C6: for every non-retryable status code of the classification table
(400, 401, 403, 404, 405, 415, 424), a transport call whose first
response returns that code raises the corresponding named error on the
first occurrence: one HTTP attempt, zero retries, zero sleeps. -/
theorem transport_nonretryable_immediate {α : Type} (maxRetries : Nat)
    (script : Nat → HttpResponse α) (code : Nat) (e : FordConnectError)
    (hmax : 0 < maxRetries)
    (htable : (code = 400 ∧ e = .badRequest) ∨ (code = 401 ∧ e = .unauthorized) ∨
      (code = 403 ∧ e = .forbidden) ∨ (code = 404 ∧ e = .vehicleNotFound) ∨
      (code = 405 ∧ e = .methodNotAllowed) ∨ (code = 415 ∧ e = .unsupportedMediaType) ∨
      (code = 424 ∧ e = .failureDependency))
    (hfirst : (script 0).status_code = code) :
    (transportRequest maxRetries script).result = .error e "Error during request."
    ∧ (transportRequest maxRetries script).attempts = 1
    ∧ (transportRequest maxRetries script).sleeps = 0 := by
  obtain ⟨n, rfl⟩ : ∃ n, maxRetries = n + 1 := ⟨maxRetries - 1, by omega⟩
  have key : transportLoop script 0 (n + 1) = ⟨.error e "Error during request.", 1, 0⟩ := by
    rcases htable with ⟨hc, he⟩ | ⟨hc, he⟩ | ⟨hc, he⟩ | ⟨hc, he⟩ | ⟨hc, he⟩ | ⟨hc, he⟩ | ⟨hc, he⟩ <;>
      subst hc <;> subst he <;>
      exact transportLoop_step_nonretryable script 0 n _ (by rw [hfirst]; try omega)
        (by rw [hfirst]; decide) rfl
  refine ⟨?_, ?_, ?_⟩ <;> simp [transportRequest, key]

/-- Witness for C6: a first response of 404 raises Vehicle-Not-Found
with exactly one attempt and no sleep. -/
theorem transport_nonretryable_immediate_witness :
    (transportRequest 5 (fun _ => ({ status_code := 404, body := () } : HttpResponse Unit))).result
        = .error .vehicleNotFound "Error during request."
    ∧ (transportRequest 5 (fun _ => ({ status_code := 404, body := () } : HttpResponse Unit))).attempts = 1
    ∧ (transportRequest 5 (fun _ => ({ status_code := 404, body := () } : HttpResponse Unit))).sleeps = 0 :=
  transport_nonretryable_immediate 5 (fun _ => { status_code := 404, body := () }) 404
    .vehicleNotFound (by omega) (Or.inr (Or.inr (Or.inr (Or.inl ⟨rfl, rfl⟩)))) rfl

/-- C10: the classification is total only over the twelve listed codes:
a response whose status code is at least 400 but absent from
`HTTP_EXCEPTION_DICT` makes the transport call fail with the
unclassified lookup error (`KeyError`) on the first attempt, neither
raising a classified error nor retrying. -/
theorem transport_unclassified_lookup {α : Type} (maxRetries : Nat)
    (script : Nat → HttpResponse α) (code : Nat)
    (hmax : 0 < maxRetries) (hge : 400 ≤ code)
    (habsent : HTTP_EXCEPTION_DICT code = none)
    (hfirst : (script 0).status_code = code) :
    (transportRequest maxRetries script).result = .keyError code
    ∧ (transportRequest maxRetries script).attempts = 1
    ∧ (transportRequest maxRetries script).sleeps = 0 := by
  obtain ⟨n, rfl⟩ : ∃ n, maxRetries = n + 1 := ⟨maxRetries - 1, by omega⟩
  have hlt : ¬ code < 400 := by omega
  have key : transportLoop script 0 (n + 1) = ⟨.keyError code, 1, 0⟩ := by
    simp [transportLoop, hfirst, habsent, hlt]
  refine ⟨?_, ?_, ?_⟩ <;> simp [transportRequest, key]

/-- Witness for C10: status code 503 is absent from the table and makes
the transport call fail with the unclassified lookup error. -/
theorem transport_unclassified_lookup_witness :
    (transportRequest 5 (fun _ => ({ status_code := 503, body := () } : HttpResponse Unit))).result
        = .keyError 503
    ∧ (transportRequest 5 (fun _ => ({ status_code := 503, body := () } : HttpResponse Unit))).attempts = 1
    ∧ (transportRequest 5 (fun _ => ({ status_code := 503, body := () } : HttpResponse Unit))).sleeps = 0 :=
  transport_unclassified_lookup 5 (fun _ => { status_code := 503, body := () }) 503
    (by omega) (by omega) rfl rfl

/-- The terminal-success and terminal-failure string sets of
`Vehicle.__perform_job` are disjoint. -/
theorem terminal_failure_not_success (s : String)
    (h : isTerminalFailure s = true) : isTerminalSuccess s = false := by
  simp only [isTerminalFailure, Bool.or_eq_true, beq_iff_eq] at h
  rcases h with ((((h | h) | h) | h) | h) | h <;> subst h <;> rfl

/-- When the scripted check responses all carry a `SUCCESS` envelope,
are non-terminal for the first `j` polls and terminal-success at poll
`j` (within the remaining budget), the poll loop returns the command
id after `j + 1` checks, one refresh and `j` sleeps. -/
theorem performPoll_completes (script : Nat → CheckResponse) (cid : String) :
    ∀ (j idx remaining : Nat), j < remaining →
    (∀ i, i ≤ j → (script (idx + i)).status = "SUCCESS") →
    (∀ i, i < j → isTerminalSuccess (script (idx + i)).commandStatus = false ∧
      isTerminalFailure (script (idx + i)).commandStatus = false) →
    isTerminalSuccess (script (idx + j)).commandStatus = true →
    performPoll script cid idx remaining = ⟨.ok cid, j + 1, 1, j⟩ := by
  intro j
  induction j with
  | zero =>
    intro idx remaining hrem henv _ hterm
    obtain ⟨m, rfl⟩ : ∃ m, remaining = m + 1 := ⟨remaining - 1, by omega⟩
    have hs : (script idx).status = "SUCCESS" := by simpa using henv 0 (Nat.le_refl 0)
    have ht : isTerminalSuccess (script idx).commandStatus = true := by simpa using hterm
    simp [performPoll, hs, ht]
  | succ k ih =>
    intro idx remaining hrem henv hmid hterm
    obtain ⟨m, rfl⟩ : ∃ m, remaining = m + 1 := ⟨remaining - 1, by omega⟩
    have hs : (script idx).status = "SUCCESS" := by simpa using henv 0 (by omega)
    have hm0 := hmid 0 (by omega)
    rw [Nat.add_zero] at hm0
    have hrec := ih (idx + 1) m (by omega)
      (fun i hi => by
        rw [show idx + 1 + i = idx + (i + 1) by omega]; exact henv (i + 1) (by omega))
      (fun i hi => by
        rw [show idx + 1 + i = idx + (i + 1) by omega]; exact hmid (i + 1) (by omega))
      (by rw [show idx + 1 + k = idx + (k + 1) by omega]; exact hterm)
    simp [performPoll, hs, hm0.1, hm0.2, hrec]

/-- C1: for every scripted sequence of check results whose envelope
status is SUCCESS and whose command-status values are non-terminal
until a terminal-success value at poll `j` within the maximum number
of poll attempts, `__perform_job` returns the command identifier
obtained from the submit call and triggers exactly one
`update_from_server` detail refresh. -/
theorem perform_job_terminal_success (maxRetries : Nat) (submit : SubmitResponse)
    (script : Nat → CheckResponse) (j : Nat)
    (hsub : submit.status = "SUCCESS")
    (hj : j < maxRetries)
    (henv : ∀ i, i ≤ j → (script i).status = "SUCCESS")
    (hmid : ∀ i, i < j → isTerminalSuccess (script i).commandStatus = false ∧
      isTerminalFailure (script i).commandStatus = false)
    (hdone : isTerminalSuccess (script j).commandStatus = true) :
    (perform_job maxRetries submit script).result = .ok submit.commandId
    ∧ (perform_job maxRetries submit script).refreshes = 1
    ∧ (perform_job maxRetries submit script).checks = j + 1 := by
  have hkey := performPoll_completes script submit.commandId j 0 maxRetries hj
    (fun i hi => by simpa using henv i hi)
    (fun i hi => by simpa using hmid i hi)
    (by simpa using hdone)
  refine ⟨?_, ?_, ?_⟩ <;> simp [perform_job, submit_job, hsub, hkey]

/-- Witness for C1: two `PENDING` polls followed by `COMPLETED` return
the submitted command id `abc` with exactly one refresh and 3 checks. -/
theorem perform_job_terminal_success_witness :
    (perform_job 10 ⟨"SUCCESS", "abc"⟩
      (fun i => ⟨"SUCCESS", if i < 2 then "PENDING" else "COMPLETED"⟩)).result = .ok "abc"
    ∧ (perform_job 10 ⟨"SUCCESS", "abc"⟩
      (fun i => ⟨"SUCCESS", if i < 2 then "PENDING" else "COMPLETED"⟩)).refreshes = 1
    ∧ (perform_job 10 ⟨"SUCCESS", "abc"⟩
      (fun i => ⟨"SUCCESS", if i < 2 then "PENDING" else "COMPLETED"⟩)).checks = 3 :=
  perform_job_terminal_success 10 ⟨"SUCCESS", "abc"⟩
    (fun i => ⟨"SUCCESS", if i < 2 then "PENDING" else "COMPLETED"⟩) 2
    rfl (by omega) (fun i _ => rfl)
    (by intro i hi; interval_cases i <;> exact ⟨rfl, rfl⟩)
    (by decide)

/-- When every scripted check response within the remaining budget has
a `SUCCESS` envelope and a non-terminal command status, the poll loop
exhausts the budget and raises the 408 timeout, with no refresh. -/
theorem performPoll_all_intermediate (script : Nat → CheckResponse) (cid : String) :
    ∀ (remaining idx : Nat),
    (∀ i, i < remaining → (script (idx + i)).status = "SUCCESS") →
    (∀ i, i < remaining → isTerminalSuccess (script (idx + i)).commandStatus = false ∧
      isTerminalFailure (script (idx + i)).commandStatus = false) →
    performPoll script cid idx remaining =
      ⟨.error .commandTimeOut "Vehicle request timed out.", remaining, 0, remaining⟩ := by
  intro remaining
  induction remaining with
  | zero => intro idx _ _; rfl
  | succ n ih =>
    intro idx henv hmid
    have hs : (script idx).status = "SUCCESS" := by simpa using henv 0 (by omega)
    have hm0 := hmid 0 (by omega)
    rw [Nat.add_zero] at hm0
    have hrec := ih (idx + 1)
      (fun i hi => by
        rw [show idx + 1 + i = idx + (i + 1) by omega]; exact henv (i + 1) (by omega))
      (fun i hi => by
        rw [show idx + 1 + i = idx + (i + 1) by omega]; exact hmid (i + 1) (by omega))
    simp [performPoll, hs, hm0.1, hm0.2, hrec]

/-- C2: for every scripted sequence of check results whose envelope
status is SUCCESS and whose command-status values are non-terminal for
a number of polls equal to the configured maximum, `__perform_job`
raises Command-Timeout (the error classified at HTTP status 408) after
exactly that maximum number of check calls, with no detail refresh. -/
theorem perform_job_poll_timeout (maxRetries : Nat) (submit : SubmitResponse)
    (script : Nat → CheckResponse)
    (hsub : submit.status = "SUCCESS")
    (henv : ∀ i, i < maxRetries → (script i).status = "SUCCESS")
    (hmid : ∀ i, i < maxRetries → isTerminalSuccess (script i).commandStatus = false ∧
      isTerminalFailure (script i).commandStatus = false) :
    (perform_job maxRetries submit script).result
        = .error .commandTimeOut "Vehicle request timed out."
    ∧ (perform_job maxRetries submit script).checks = maxRetries
    ∧ (perform_job maxRetries submit script).refreshes = 0
    ∧ HTTP_EXCEPTION_DICT 408 = some .commandTimeOut := by
  have hkey := performPoll_all_intermediate script submit.commandId maxRetries 0
    (fun i hi => by simpa using henv i hi)
    (fun i hi => by simpa using hmid i hi)
  refine ⟨?_, ?_, ?_, rfl⟩ <;> simp [perform_job, submit_job, hsub, hkey]

/-- Witness for C2: three `PENDING` polls against a budget of 3 raise
the 408 timeout after exactly 3 checks and no refresh. -/
theorem perform_job_poll_timeout_witness :
    (perform_job 3 ⟨"SUCCESS", "abc"⟩ (fun _ => ⟨"SUCCESS", "PENDING"⟩)).result
        = .error .commandTimeOut "Vehicle request timed out."
    ∧ (perform_job 3 ⟨"SUCCESS", "abc"⟩ (fun _ => ⟨"SUCCESS", "PENDING"⟩)).checks = 3
    ∧ (perform_job 3 ⟨"SUCCESS", "abc"⟩ (fun _ => ⟨"SUCCESS", "PENDING"⟩)).refreshes = 0
    ∧ HTTP_EXCEPTION_DICT 408 = some .commandTimeOut :=
  perform_job_poll_timeout 3 ⟨"SUCCESS", "abc"⟩ (fun _ => ⟨"SUCCESS", "PENDING"⟩)
    rfl (fun _ _ => rfl) (fun _ _ => ⟨rfl, rfl⟩)

/-- When the scripted check responses all carry a `SUCCESS` envelope,
are non-terminal for the first `j` polls and terminal-failure at poll
`j` (within the remaining budget), the poll loop raises the 406
execution failure at that poll: `j + 1` checks, no refresh. -/
theorem performPoll_fails (script : Nat → CheckResponse) (cid : String) :
    ∀ (j idx remaining : Nat), j < remaining →
    (∀ i, i ≤ j → (script (idx + i)).status = "SUCCESS") →
    (∀ i, i < j → isTerminalSuccess (script (idx + i)).commandStatus = false ∧
      isTerminalFailure (script (idx + i)).commandStatus = false) →
    isTerminalFailure (script (idx + j)).commandStatus = true →
    performPoll script cid idx remaining =
      ⟨.error .commandFailed "Vehicle command failed to execute.", j + 1, 0, j⟩ := by
  intro j
  induction j with
  | zero =>
    intro idx remaining hrem henv _ hterm
    obtain ⟨m, rfl⟩ : ∃ m, remaining = m + 1 := ⟨remaining - 1, by omega⟩
    have hs : (script idx).status = "SUCCESS" := by simpa using henv 0 (Nat.le_refl 0)
    have hf : isTerminalFailure (script idx).commandStatus = true := by simpa using hterm
    have hns : isTerminalSuccess (script idx).commandStatus = false :=
      terminal_failure_not_success _ hf
    simp [performPoll, hs, hf, hns]
  | succ k ih =>
    intro idx remaining hrem henv hmid hterm
    obtain ⟨m, rfl⟩ : ∃ m, remaining = m + 1 := ⟨remaining - 1, by omega⟩
    have hs : (script idx).status = "SUCCESS" := by simpa using henv 0 (by omega)
    have hm0 := hmid 0 (by omega)
    rw [Nat.add_zero] at hm0
    have hrec := ih (idx + 1) m (by omega)
      (fun i hi => by
        rw [show idx + 1 + i = idx + (i + 1) by omega]; exact henv (i + 1) (by omega))
      (fun i hi => by
        rw [show idx + 1 + i = idx + (i + 1) by omega]; exact hmid (i + 1) (by omega))
      (by rw [show idx + 1 + k = idx + (k + 1) by omega]; exact hterm)
    simp [performPoll, hs, hm0.1, hm0.2, hrec]

/-- C3: for every scripted sequence of check results whose envelope
status is SUCCESS, whose first terminal command-status value is a
terminal-failure value and appears at a poll the loop reaches,
`__perform_job` raises the Command-Execution-Failure error (classified
at HTTP status 406) immediately at that poll, performs no further check
calls, and triggers no detail refresh. -/
theorem perform_job_exec_failure (maxRetries : Nat) (submit : SubmitResponse)
    (script : Nat → CheckResponse) (j : Nat)
    (hsub : submit.status = "SUCCESS")
    (hj : j < maxRetries)
    (henv : ∀ i, i ≤ j → (script i).status = "SUCCESS")
    (hmid : ∀ i, i < j → isTerminalSuccess (script i).commandStatus = false ∧
      isTerminalFailure (script i).commandStatus = false)
    (hfail : isTerminalFailure (script j).commandStatus = true) :
    (perform_job maxRetries submit script).result
        = .error .commandFailed "Vehicle command failed to execute."
    ∧ (perform_job maxRetries submit script).checks = j + 1
    ∧ (perform_job maxRetries submit script).refreshes = 0
    ∧ HTTP_EXCEPTION_DICT 406 = some .commandFailed := by
  have hkey := performPoll_fails script submit.commandId j 0 maxRetries hj
    (fun i hi => by simpa using henv i hi)
    (fun i hi => by simpa using hmid i hi)
    (by simpa using hfail)
  refine ⟨?_, ?_, ?_, rfl⟩ <;> simp [perform_job, submit_job, hsub, hkey]

/-- Witness for C3: one `PENDING` poll followed by `FAILED` raises the
406 execution failure at the second check, with no refresh. -/
theorem perform_job_exec_failure_witness :
    (perform_job 10 ⟨"SUCCESS", "abc"⟩
      (fun i => ⟨"SUCCESS", if i < 1 then "PENDING" else "FAILED"⟩)).result
        = .error .commandFailed "Vehicle command failed to execute."
    ∧ (perform_job 10 ⟨"SUCCESS", "abc"⟩
      (fun i => ⟨"SUCCESS", if i < 1 then "PENDING" else "FAILED"⟩)).checks = 2
    ∧ (perform_job 10 ⟨"SUCCESS", "abc"⟩
      (fun i => ⟨"SUCCESS", if i < 1 then "PENDING" else "FAILED"⟩)).refreshes = 0
    ∧ HTTP_EXCEPTION_DICT 406 = some .commandFailed :=
  perform_job_exec_failure 10 ⟨"SUCCESS", "abc"⟩
    (fun i => ⟨"SUCCESS", if i < 1 then "PENDING" else "FAILED"⟩) 1
    rfl (by omega) (fun i _ => rfl)
    (by intro i hi; interval_cases i; exact ⟨rfl, rfl⟩)
    (by decide)

/-- C4: a submit response whose envelope status is not SUCCESS makes
`__submit_job` raise (the 406 submit failure) without returning a
command identifier, and the poll loop of `__perform_job` performs zero
check calls; a SUCCESS envelope makes `__submit_job` return the
response's `commandId` field. -/
theorem submit_envelope_gate (maxRetries : Nat) (submit : SubmitResponse)
    (script : Nat → CheckResponse) :
    (submit.status ≠ "SUCCESS" →
      submit_job submit = .error .commandFailed "Vehicle request command failed."
      ∧ (perform_job maxRetries submit script).checks = 0
      ∧ (perform_job maxRetries submit script).result
          = .error .commandFailed "Vehicle request command failed.")
    ∧ (submit.status = "SUCCESS" → submit_job submit = .ok submit.commandId) := by
  constructor
  · intro h
    have hs : submit_job submit = .error .commandFailed "Vehicle request command failed." := by
      simp [submit_job, h]
    exact ⟨hs, by simp [perform_job, hs], by simp [perform_job, hs]⟩
  · intro h
    simp [submit_job, h]

/-- Witness for C4: a `FAILED` submit envelope yields the submit
failure with zero checks; a `SUCCESS` envelope returns its command id. -/
theorem submit_envelope_gate_witness :
    submit_job ⟨"FAILED", "x"⟩ = .error .commandFailed "Vehicle request command failed."
    ∧ (perform_job 10 ⟨"FAILED", "x"⟩ (fun _ => ⟨"SUCCESS", "PENDING"⟩)).checks = 0
    ∧ submit_job ⟨"SUCCESS", "abc"⟩ = .ok "abc" :=
  ⟨((submit_envelope_gate 10 ⟨"FAILED", "x"⟩ (fun _ => ⟨"SUCCESS", "PENDING"⟩)).1 (by decide)).1,
   ((submit_envelope_gate 10 ⟨"FAILED", "x"⟩ (fun _ => ⟨"SUCCESS", "PENDING"⟩)).1 (by decide)).2.1,
   (submit_envelope_gate 10 ⟨"SUCCESS", "abc"⟩ (fun _ => ⟨"SUCCESS", "PENDING"⟩)).2 rfl⟩

/-- C7: when the current time is at or past the access-token expiry but
strictly before the refresh-token expiry, `check_authentication`
performs exactly one refresh-token exchange and zero full
re-authentications; at or past the refresh-token expiry it performs a
full re-authentication; before both expiries it performs neither. -/
theorem check_authentication_gate (currTime tokenExp refreshExp : Int) :
    (tokenExp ≤ currTime → currTime < refreshExp →
      refreshExchanges (check_authentication currTime tokenExp refreshExp) = 1
      ∧ fullAuthentications (check_authentication currTime tokenExp refreshExp) = 0)
    ∧ (refreshExp ≤ currTime →
      fullAuthentications (check_authentication currTime tokenExp refreshExp) = 1
      ∧ refreshExchanges (check_authentication currTime tokenExp refreshExp) = 0)
    ∧ (currTime < tokenExp → currTime < refreshExp →
      refreshExchanges (check_authentication currTime tokenExp refreshExp) = 0
      ∧ fullAuthentications (check_authentication currTime tokenExp refreshExp) = 0) := by
  refine ⟨?_, ?_, ?_⟩
  · intro h1 h2
    have hn : ¬ refreshExp ≤ currTime := by omega
    simp [check_authentication, hn, h1, refreshExchanges, fullAuthentications]
  · intro h1
    simp [check_authentication, h1, refreshExchanges, fullAuthentications]
  · intro h1 h2
    have ha : ¬ refreshExp ≤ currTime := by omega
    have hb : ¬ tokenExp ≤ currTime := by omega
    simp [check_authentication, ha, hb, refreshExchanges, fullAuthentications]

/-- Witness for C7: at time 5 with access expiry 3 and refresh expiry
10 the gate refreshes once; at time 12 it fully re-authenticates; at
time 1 it does neither. -/
theorem check_authentication_gate_witness :
    (refreshExchanges (check_authentication 5 3 10) = 1
      ∧ fullAuthentications (check_authentication 5 3 10) = 0)
    ∧ (fullAuthentications (check_authentication 12 3 10) = 1
      ∧ refreshExchanges (check_authentication 12 3 10) = 0)
    ∧ (refreshExchanges (check_authentication 1 3 10) = 0
      ∧ fullAuthentications (check_authentication 1 3 10) = 0) :=
  ⟨(check_authentication_gate 5 3 10).1 (by decide) (by decide),
   (check_authentication_gate 12 3 10).2.1 (by decide),
   (check_authentication_gate 1 3 10).2.2 (by decide) (by decide)⟩

/-- C8: on a vehicle whose EV flag is false, each of the four charge
operations raises the non-retryable capability error (the 405
Method-Not-Allowed kind) with zero transport calls performed. -/
theorem charge_requires_ev (is_ev : Bool) (net1 net2 net3 net4 : ActionTrace)
    (hev : is_ev = false) :
    request_start_charge is_ev net1 =
      ⟨.error .methodNotAllowed "Using EV-only function on non-EV vehicle.", 0⟩
    ∧ check_start_charge is_ev net2 =
      ⟨.error .methodNotAllowed "Using EV-only function on non-EV vehicle.", 0⟩
    ∧ request_stop_charge is_ev net3 =
      ⟨.error .methodNotAllowed "Using EV-only function on non-EV vehicle.", 0⟩
    ∧ check_stop_charge is_ev net4 =
      ⟨.error .methodNotAllowed "Using EV-only function on non-EV vehicle.", 0⟩
    ∧ FordConnectError.can_retry .methodNotAllowed = false := by
  subst hev
  exact ⟨rfl, rfl, rfl, rfl, rfl⟩

/-- Witness for C8: all four charge operations on a non-EV vehicle
yield the capability error with zero transport calls, even when the
network part would succeed in one call. -/
theorem charge_requires_ev_witness :
    request_start_charge false ⟨.ok "a", 1⟩ =
      ⟨.error .methodNotAllowed "Using EV-only function on non-EV vehicle.", 0⟩
    ∧ check_start_charge false ⟨.ok "b", 1⟩ =
      ⟨.error .methodNotAllowed "Using EV-only function on non-EV vehicle.", 0⟩
    ∧ request_stop_charge false ⟨.ok "c", 1⟩ =
      ⟨.error .methodNotAllowed "Using EV-only function on non-EV vehicle.", 0⟩
    ∧ check_stop_charge false ⟨.ok "d", 1⟩ =
      ⟨.error .methodNotAllowed "Using EV-only function on non-EV vehicle.", 0⟩
    ∧ FordConnectError.can_retry .methodNotAllowed = false :=
  charge_requires_ev false ⟨.ok "a", 1⟩ ⟨.ok "b", 1⟩ ⟨.ok "c", 1⟩ ⟨.ok "d", 1⟩ rfl

/-- Counterexample for C9: `populate_authentication_info` copies fields
without enforcing the invariant, so a token-exchange response with
`expires_on = 100`, `not_before = 0` and `refresh_token_expires_in =
10` yields `token_expiration = 100 > 10 = refresh_token_expiration`. -/
theorem populate_invariant_counterexample :
    ¬ ((populate_authentication_info
        ⟨"a", "r", "i", "Bearer", 100, 0, 10⟩).token_expiration ≤
      (populate_authentication_info
        ⟨"a", "r", "i", "Bearer", 100, 0, 10⟩).refresh_token_expiration) := by
  decide

/-- C9 (amended): the invariant access-expiry ≤ refresh-expiry holds
after `populate_authentication_info` exactly when the token-exchange
response itself satisfies `expires_on ≤ not_before +
refresh_token_expires_in`; the code copies the fields and does not
enforce it. -/
theorem populate_invariant_amended (r : TokenResponse)
    (h : r.expires_on ≤ r.not_before + r.refresh_token_expires_in) :
    (populate_authentication_info r).token_expiration ≤
      (populate_authentication_info r).refresh_token_expiration := h

/-- Witness for the amended C9: a response with `expires_on = 5`,
`not_before = 0`, `refresh_token_expires_in = 10` satisfies the
invariant after the update. -/
theorem populate_invariant_amended_witness :
    (populate_authentication_info ⟨"a", "r", "i", "Bearer", 5, 0, 10⟩).token_expiration ≤
      (populate_authentication_info ⟨"a", "r", "i", "Bearer", 5, 0, 10⟩).refresh_token_expiration :=
  populate_invariant_amended ⟨"a", "r", "i", "Bearer", 5, 0, 10⟩ (by decide)

end FordConnect
